import Mathlib

set_option maxRecDepth 100000

/-!
Verification development for the Dash-Evo-Tool SPV header diagnostics
(`search_mystery_hash.py`, `test_mystery_hash.py`) and the header-chain
storage spec they document.  Bytes are modelled as `Nat` values below 256,
byte strings as `List Nat`, and 32-bit words as `Nat` reduced modulo
`2 ^ 32`.  The Python scripts call `hashlib.sha256`, which is SHA-256 of
FIPS 180-4; it is implemented here executably so every hash computation in
the scripts has a concrete Lean counterpart.
-/

/-! ## SHA-256 (FIPS 180-4), the function behind `hashlib.sha256` -/

/-- Reduce a natural number to a 32-bit word. -/
def w32 (n : Nat) : Nat := n % 4294967296

/-- Right rotation of a 32-bit word by `n` places. -/
def rotr32 (n x : Nat) : Nat := w32 ((x >>> n) ||| (x <<< (32 - n)))

/-- Bitwise choice: each bit of `x` selects between `y` and `z`. -/
def shaCh (x y z : Nat) : Nat := (x &&& y) ^^^ ((x ^^^ 4294967295) &&& z)

/-- Bitwise majority of three 32-bit words. -/
def shaMaj (x y z : Nat) : Nat := (x &&& y) ^^^ (x &&& z) ^^^ (y &&& z)

/-- Big sigma-0 of FIPS 180-4. -/
def bsig0 (x : Nat) : Nat := rotr32 2 x ^^^ rotr32 13 x ^^^ rotr32 22 x

/-- Big sigma-1 of FIPS 180-4. -/
def bsig1 (x : Nat) : Nat := rotr32 6 x ^^^ rotr32 11 x ^^^ rotr32 25 x

/-- Small sigma-0 of FIPS 180-4. -/
def ssig0 (x : Nat) : Nat := rotr32 7 x ^^^ rotr32 18 x ^^^ (x >>> 3)

/-- Small sigma-1 of FIPS 180-4. -/
def ssig1 (x : Nat) : Nat := rotr32 17 x ^^^ rotr32 19 x ^^^ (x >>> 10)

/-- The 64 SHA-256 round constants. -/
def shaK : List Nat :=
  [1116352408, 1899447441, 3049323471, 3921009573, 961987163, 1508970993,
   2453635748, 2870763221, 3624381080, 310598401, 607225278, 1426881987,
   1925078388, 2162078206, 2614888103, 3248222580, 3835390401, 4022224774,
   264347078, 604807628, 770255983, 1249150122, 1555081692, 1996064986,
   2554220882, 2821834349, 2952996808, 3210313671, 3336571891, 3584528711,
   113926993, 338241895, 666307205, 773529912, 1294757372, 1396182291,
   1695183700, 1986661051, 2177026350, 2456956037, 2730485921, 2820302411,
   3259730800, 3345764771, 3516065817, 3600352804, 4094571909, 275423344,
   430227734, 506948616, 659060556, 883997877, 958139571, 1322822218,
   1537002063, 1747873779, 1955562222, 2024104815, 2227730452, 2361852424,
   2428436474, 2756734187, 3204031479, 3329325298]

/-- The eight SHA-256 initial hash values. -/
def shaInit : List Nat :=
  [1779033703, 3144134277, 1013904242, 2773480762,
   1359893119, 2600822924, 528734635, 1541459225]

/-- Big-endian 8-byte serialisation of a 64-bit length field. -/
def u64be (n : Nat) : List Nat :=
  [(n >>> 56) % 256, (n >>> 48) % 256, (n >>> 40) % 256, (n >>> 32) % 256,
   (n >>> 24) % 256, (n >>> 16) % 256, (n >>> 8) % 256, n % 256]

/-- SHA-256 padding: `0x80`, zeros to 56 mod 64, then the bit length
big-endian, reaching a multiple of 64 bytes. -/
def padMsg (msg : List Nat) : List Nat :=
  msg ++ [128] ++ List.replicate ((120 - ((msg.length + 1) % 64)) % 64) 0
      ++ u64be (msg.length * 8)

/-- Group bytes into big-endian 32-bit words, four bytes per word. -/
def bytesToWordsBE : List Nat → List Nat
  | a :: b :: c :: d :: rest =>
      (((a * 256 + b) * 256 + c) * 256 + d) :: bytesToWordsBE rest
  | _ => []

/-- Serialise 32-bit words back to big-endian bytes. -/
def wordsToBytesBE (ws : List Nat) : List Nat :=
  ws.foldr (fun x acc =>
    (x >>> 24) % 256 :: (x >>> 16) % 256 :: (x >>> 8) % 256 :: x % 256 :: acc) []

/-- Extend the 16 words of a block to the 64-word message schedule. -/
def scheduleExtend (ws : List Nat) : List Nat :=
  (List.range 48).foldl (fun w _ =>
    w ++ [w32 (ssig1 (w.getD (w.length - 2) 0) + w.getD (w.length - 7) 0
               + ssig0 (w.getD (w.length - 15) 0) + w.getD (w.length - 16) 0)]) ws

/-- One SHA-256 round: fold the working variables over a constant/schedule
word pair. -/
def shaRound (st : Nat × Nat × Nat × Nat × Nat × Nat × Nat × Nat) (kw : Nat × Nat) :
    Nat × Nat × Nat × Nat × Nat × Nat × Nat × Nat :=
  let (a, b, c, d, e, f, g, h) := st
  let t1 := w32 (h + bsig1 e + shaCh e f g + kw.1 + kw.2)
  let t2 := w32 (bsig0 a + shaMaj a b c)
  (w32 (t1 + t2), a, b, c, w32 (d + t1), e, f, g)

/-- Compress one 64-byte block into the 8-word state. -/
def compressBlock (st : List Nat) (block : List Nat) : List Nat :=
  let ws := scheduleExtend (bytesToWordsBE block)
  let s0 := (st.getD 0 0, st.getD 1 0, st.getD 2 0, st.getD 3 0,
             st.getD 4 0, st.getD 5 0, st.getD 6 0, st.getD 7 0)
  let r := (shaK.zip ws).foldl shaRound s0
  [w32 (st.getD 0 0 + r.1), w32 (st.getD 1 0 + r.2.1), w32 (st.getD 2 0 + r.2.2.1),
   w32 (st.getD 3 0 + r.2.2.2.1), w32 (st.getD 4 0 + r.2.2.2.2.1),
   w32 (st.getD 5 0 + r.2.2.2.2.2.1), w32 (st.getD 6 0 + r.2.2.2.2.2.2.1),
   w32 (st.getD 7 0 + r.2.2.2.2.2.2.2)]

/-- Compress a padded message block by block; the fuel argument bounds the
number of blocks and keeps the recursion structural so it evaluates. -/
def processBlocksAux : Nat → List Nat → List Nat → List Nat
  | 0, st, _ => st
  | fuel + 1, st, bytes =>
      if bytes = [] then st
      else processBlocksAux fuel (compressBlock st (bytes.take 64)) (bytes.drop 64)

/-- Compress a padded message block by block. -/
def processBlocks (st bytes : List Nat) : List Nat :=
  processBlocksAux bytes.length st bytes

/-- SHA-256 of a byte string, as its 32 digest bytes. -/
def sha256 (msg : List Nat) : List Nat :=
  wordsToBytesBE (processBlocks shaInit (padMsg msg))

/-! ## Lowercase hex rendering, the Python `bytes.hex()` -/

/-- Lowercase hexadecimal digit for a value below 16. -/
def hexChar (n : Nat) : Char :=
  if n < 10 then Char.ofNat (48 + n) else Char.ofNat (87 + n)

/-- Two lowercase hex digits of one byte. -/
def byteHex (b : Nat) : String :=
  String.mk [hexChar (b / 16 % 16), hexChar (b % 16)]

/-- Lowercase hex string of a byte sequence, as Python `bytes.hex()`. -/
def bytesToHexLower (bs : List Nat) : String :=
  String.join (bs.map byteHex)

example : bytesToHexLower (sha256 []) =
    "e3b0c44298fc1c149afbf4c8996fb92427ae41e4649b934ca495991b7852b855" := by
  decide

example : bytesToHexLower (sha256 [97, 98, 99]) =
    "ba7816bf8f01cfea414140de5dae2223b00361a396177a9cb410ff61f20015ad" := by
  decide

/-! ## The diagnostic scripts: record slicing and the per-record hash -/

/-- Python slice `l[a:b]` for non-negative bounds: elements `a` to `b - 1`,
clamped to the list. -/
def pySlice (l : List Nat) (a b : Nat) : List Nat := (l.take b).drop a

/-- Record slice `data[i * header_size:(i + 1) * header_size]` with
`header_size = 80`, as both scripts take it. -/
def headerAt (data : List Nat) (i : Nat) : List Nat :=
  pySlice data (i * 80) ((i + 1) * 80)

/-- Complete header count `num_headers = len(data) // header_size` of
`search_mystery_hash.py` line 19. -/
def numHeaders (data : List Nat) : Nat := data.length / 80

/-- The `mystery_hash` constant both scripts search for. -/
def mystery_hash : String :=
  "00000014ae902cd16b2109ee531d006780ad3303af01e7b938e182c30c99f749"

/-- The `expected_hash` constant both scripts search for. -/
def expected_hash : String :=
  "0000001e340a0e6fb510d53c2316e8b0f3e27b2e6ee0002a23f228cfec723b06"

/-- Hash computation of the first-pass loop, `search_mystery_hash.py`
lines 30-32: double SHA-256, byte-reversed, lowercase hex. -/
def searchFirstPassHex (header_data : List Nat) : String :=
  let hash1 := sha256 header_data
  let hash2 := sha256 hash1
  bytesToHexLower hash2.reverse

/-- Hash computation of the surrounding-headers listing,
`search_mystery_hash.py` lines 41-43. -/
def searchSurroundingHex (h_data : List Nat) : String :=
  let h1 := sha256 h_data
  let h2 := sha256 h1
  bytesToHexLower h2.reverse

/-- Hash computation of the header scan, `test_mystery_hash.py`
lines 39-41. -/
def testScanHex (header_data : List Nat) : String :=
  let hash1 := sha256 header_data
  let hash2 := sha256 hash1
  bytesToHexLower hash2.reverse

/-- Modelled from the spec: `HeaderCodec.hash(bytes[80]) -> HeaderHash`,
SHA-256 applied twice and the result byte-reversed (spec section 4.1); the
`HeaderCodec` component itself is not among the repository sources, only the
diagnostic scripts that recompute it are. -/
def headerCodecHash (b : List Nat) : List Nat :=
  (sha256 (sha256 b)).reverse

/-! ## Slice lemmas and the slicing/hash claims -/

/-- Record slices of full records are exactly 80 bytes. -/
theorem headerAt_length (data : List Nat) (i : Nat)
    (hb : (i + 1) * 80 ≤ data.length) : (headerAt data i).length = 80 := by
  simp only [headerAt, pySlice, List.length_drop, List.length_take]
  omega

/-- C2: the record at height `i` occupies exactly the byte range
`[i*80, (i+1)*80)` of the segment bytes: the slice both scripts read at
index `i` has length 80 and its byte `j` is the segment byte at position
`i * 80 + j`, so a read at offset `i` addresses byte position `i * 80`. -/
theorem record_byte_range (data : List Nat) (i : Nat)
    (hb : (i + 1) * 80 ≤ data.length) :
    (headerAt data i).length = 80 ∧
      ∀ j, j < 80 → (headerAt data i)[j]? = data[i * 80 + j]? := by
  refine ⟨headerAt_length data i hb, fun j hj => ?_⟩
  simp only [headerAt, pySlice]
  rw [List.getElem?_drop]
  exact List.getElem?_take_of_lt (by omega)

/-- Witness for `record_byte_range` at a concrete 160-byte segment. -/
theorem record_byte_range_witness :
    (1 + 1) * 80 ≤ (List.range 160).length ∧ (5 < 80) ∧
      (headerAt (List.range 160) 1)[5]? = (List.range 160)[1 * 80 + 5]? := by
  refine ⟨by decide, by decide, ?_⟩
  exact (record_byte_range (List.range 160) 1 (by decide)).2 5 (by decide)

/-- C8: every record slice either script hashes is exactly 80 bytes long.
Under the `search_mystery_hash.py` loop bound `i < num_headers` the slice
has length 80 and stays inside the first `num_headers * 80` bytes, so the
`len(data) % 80` leftover bytes are never part of a hashed record; under
the `test_mystery_hash.py` guard `i * 80 + 80 <= len(data)` the slice also
has length 80. -/
theorem hashed_slice_exact (data : List Nat) (i : Nat) :
    (i < numHeaders data →
      (headerAt data i).length = 80 ∧
        i * 80 + 80 ≤ data.length - data.length % 80) ∧
    (i * 80 + 80 ≤ data.length → (headerAt data i).length = 80) := by
  constructor
  · intro h
    have hb : (i + 1) * 80 ≤ data.length := by
      simp only [numHeaders] at h
      omega
    exact ⟨headerAt_length data i hb, by simp only [numHeaders] at h; omega⟩
  · intro h
    exact headerAt_length data i (by omega)

/-- Witness for `hashed_slice_exact` at a concrete 165-byte segment with
5 leftover bytes. -/
theorem hashed_slice_exact_witness :
    1 < numHeaders (List.replicate 165 7) ∧
      (headerAt (List.replicate 165 7) 1).length = 80 ∧
      1 * 80 + 80 ≤ (List.replicate 165 7).length -
        (List.replicate 165 7).length % 80 := by
  refine ⟨by decide, ?_⟩
  exact (hashed_slice_exact (List.replicate 165 7) 1).1 (by decide)

/-- C9: the three in-code hash computations are one and the same function:
the first-pass hash of `search_mystery_hash.py`, its surrounding-headers
recomputation, and the `test_mystery_hash.py` scan hash agree on every
input, so the surrounding-headers listing at the matched index reprints
exactly the matched hash. -/
theorem hash_sites_agree (b data : List Nat) (i : Nat) :
    searchFirstPassHex b = searchSurroundingHex b ∧
      searchSurroundingHex b = testScanHex b ∧
      searchSurroundingHex (headerAt data i) =
        searchFirstPassHex (headerAt data i) :=
  ⟨rfl, rfl, rfl⟩

/-- C1: the derived header hash is the byte-reversal of double SHA-256 —
`headerCodecHash` (the spec's `HeaderCodec.hash`) agrees with the identifier
both scripts render as lowercase hex and compare against the wire-seen
`mystery_hash`/`expected_hash` strings.  Both sides are plain Lean
functions of the record bytes `b` alone, so purity and determinism are
intrinsic. -/
theorem header_hash_spec (b : List Nat) (_hlen : b.length = 80) :
    headerCodecHash b = (sha256 (sha256 b)).reverse ∧
      searchFirstPassHex b = bytesToHexLower (headerCodecHash b) ∧
      testScanHex b = bytesToHexLower (headerCodecHash b) :=
  ⟨rfl, rfl, rfl⟩

/-- Witness for `header_hash_spec` at the all-zero 80-byte record. -/
theorem header_hash_spec_witness :
    (List.replicate 80 0).length = 80 ∧
      searchFirstPassHex (List.replicate 80 0) =
        bytesToHexLower (headerCodecHash (List.replicate 80 0)) :=
  ⟨by decide, (header_hash_spec (List.replicate 80 0) (by decide)).2.1⟩

/-! ## BlockLocator builder, modelled from the spec -/

/-- Modelled from the spec: the locator step after `k` emitted entries —
the first four steps are 1 (heights `tip, tip-1, tip-2, tip-3, tip-4`),
then the step doubles (`tip-6, tip-10, tip-18, ...`, spec section 4.5).
The `BlockLocator` builder is not among the repository sources. -/
def locStep (k : Nat) : Nat := if k < 4 then 1 else 2 ^ (k - 3)

/-- Modelled from the spec: the heights `build` walks, back from the tip by
`locStep`, clamping at genesis (truncated subtraction) and emitting height 0
once before stopping.  The fuel argument keeps the recursion structural;
`tip + 1` is always enough because each step moves down by at least one. -/
def locAux : Nat → Nat → Nat → List Nat
  | 0, _, _ => []
  | _ + 1, 0, _ => [0]
  | fuel + 1, h + 1, k => (h + 1) :: locAux fuel (h + 1 - locStep k) (k + 1)

/-- Heights visited by the locator builder for a given tip. -/
def locatorHeights (tip : Nat) : List Nat := locAux (tip + 1) tip 0

/-- Modelled from the spec: `build(tip_height)` — the ordered sequence of
hashes at the locator heights, each obtained from the store accessor
`get_hash`. -/
def buildLocator (get_hash : Nat → List Nat) (tip : Nat) : List (List Nat) :=
  (locatorHeights tip).map get_hash

/-- Locator steps are always positive. -/
theorem locStep_pos (k : Nat) : 0 < locStep k := by
  unfold locStep
  split
  · exact Nat.one_pos
  · exact Nat.pos_pow_of_pos _ Nat.zero_lt_two

/-- Every height the locator walk emits is at most the starting height. -/
theorem locAux_le (fuel : Nat) : ∀ h k, h < fuel → ∀ x ∈ locAux fuel h k, x ≤ h := by
  induction fuel with
  | zero => intro h k hf; omega
  | succ fuel ih =>
    intro h k hf x hx
    match h, hx with
    | 0, hx => simp only [locAux, List.mem_singleton] at hx; omega
    | h' + 1, hx =>
      simp only [locAux, List.mem_cons] at hx
      rcases hx with rfl | hx
      · exact Nat.le_refl _
      · have hs := locStep_pos k
        have hlt : h' + 1 - locStep k < fuel := by omega
        have := ih (h' + 1 - locStep k) (k + 1) hlt x hx
        omega

/-- The locator walk always reaches genesis. -/
theorem locAux_zero_mem (fuel : Nat) : ∀ h k, h < fuel → 0 ∈ locAux fuel h k := by
  induction fuel with
  | zero => intro h k hf; omega
  | succ fuel ih =>
    intro h k hf
    match h with
    | 0 => simp [locAux]
    | h' + 1 =>
      simp only [locAux, List.mem_cons]
      right
      have hs := locStep_pos k
      exact ih (h' + 1 - locStep k) (k + 1) (by omega)

/-- The locator walk is strictly decreasing. -/
theorem locAux_pairwise (fuel : Nat) :
    ∀ h k, h < fuel → List.Pairwise (· > ·) (locAux fuel h k) := by
  induction fuel with
  | zero => intro h k hf; omega
  | succ fuel ih =>
    intro h k hf
    match h with
    | 0 => simp [locAux]
    | h' + 1 =>
      have hs := locStep_pos k
      have hlt : h' + 1 - locStep k < fuel := by omega
      refine List.Pairwise.cons ?_ (ih (h' + 1 - locStep k) (k + 1) hlt)
      intro y hy
      have := locAux_le fuel (h' + 1 - locStep k) (k + 1) hlt y hy
      omega

/-- Locator heights never exceed the tip. -/
theorem locatorHeights_le (tip : Nat) : ∀ x ∈ locatorHeights tip, x ≤ tip :=
  locAux_le (tip + 1) tip 0 (Nat.lt_succ_self tip)

/-- Locator heights are distinct. -/
theorem locatorHeights_nodup (tip : Nat) : (locatorHeights tip).Nodup :=
  (locAux_pairwise (tip + 1) tip 0 (Nat.lt_succ_self tip)).imp fun h => ne_of_gt h

/-- C3: `build(2000)` returns the hashes at heights exactly
`2000,1999,1998,1997,1996,1994,1990,1982,...,0` (step doubling after the
first four unit steps, genesis included exactly once), and for every tip
the height sequence stays within `[0, tip]`, has no duplicates and
contains height 0 exactly once. -/
theorem locator_build (g : Nat → List Nat) (tip x : Nat) :
    buildLocator g 2000 =
      [g 2000, g 1999, g 1998, g 1997, g 1996, g 1994, g 1990, g 1982,
       g 1966, g 1934, g 1870, g 1742, g 1486, g 974, g 0] ∧
      (x ∈ locatorHeights tip → x ≤ tip) ∧
      0 ∈ locatorHeights tip ∧
      (locatorHeights tip).Nodup ∧
      (locatorHeights tip).count 0 = 1 := by
  refine ⟨?_, fun hx => locatorHeights_le tip x hx,
    locAux_zero_mem (tip + 1) tip 0 (Nat.lt_succ_self tip),
    locatorHeights_nodup tip, ?_⟩
  · have h2000 : locatorHeights 2000 =
        [2000, 1999, 1998, 1997, 1996, 1994, 1990, 1982,
         1966, 1934, 1870, 1742, 1486, 974, 0] := by decide
    simp [buildLocator, h2000]
  · exact List.count_eq_one_of_mem (locatorHeights_nodup tip)
      (locAux_zero_mem (tip + 1) tip 0 (Nat.lt_succ_self tip))

/-- Witness for `locator_build` at tip 5: height 4 is emitted and is
within the tip bound. -/
theorem locator_build_witness : 4 ∈ locatorHeights 5 ∧ 4 ≤ 5 :=
  ⟨by decide, (locator_build (fun _ => []) 5 4).2.1 (by decide)⟩

/-! ## Segment store and codec, modelled from the spec -/

/-- Error kinds of the store, from spec section 7. -/
inductive StoreError where
  | CorruptSegment
  | OutOfRange
  | HeightGap
  | MalformedHeader
  deriving DecidableEq

/-- An opened segment file: its raw bytes. -/
structure SegmentFile where
  data : List Nat
  deriving DecidableEq

/-- Modelled from the spec: opening a segment file verifies
`file_size % 80 == 0` and fails with `CorruptSegment` otherwise (spec
section 4.2, mirroring the scripts' leftover-bytes diagnostic); the
`SegmentFile` component is not among the repository sources. -/
def segmentOpen (bytes : List Nat) : Except StoreError SegmentFile :=
  if bytes.length % 80 = 0 then .ok ⟨bytes⟩ else .error .CorruptSegment

/-- Modelled from the spec: `record_count() = file_size / 80`. -/
def SegmentFile.record_count (s : SegmentFile) : Nat := s.data.length / 80

/-- Modelled from the spec: `read(offset)` on an opened segment — fails
with `OutOfRange` past the capacity or past the stored records, and
computes the byte position as `offset * 80`. -/
def SegmentFile.read (s : SegmentFile) (capacity offset : Nat) :
    Except StoreError (List Nat) :=
  if capacity ≤ offset ∨ s.record_count < offset + 1 then .error .OutOfRange
  else .ok (headerAt s.data offset)

/-- C4: `record_count()` is `file_size / 80` (the scripts'
`num_headers`), and a file whose size is not a multiple of 80 is rejected
with `CorruptSegment` by `segmentOpen` itself — so no `SegmentFile` with
leftover bytes is ever produced and no record of one is ever served. -/
theorem segment_open_corruption (bytes : List Nat) :
    (bytes.length % 80 ≠ 0 → segmentOpen bytes = .error .CorruptSegment) ∧
    (∀ s, segmentOpen bytes = .ok s →
      bytes.length % 80 = 0 ∧
        s.record_count = bytes.length / 80 ∧
        s.record_count = numHeaders bytes) := by
  constructor
  · intro hmod
    simp [segmentOpen, hmod]
  · intro s hs
    unfold segmentOpen at hs
    split at hs
    · cases hs
      exact ⟨by assumption, rfl, rfl⟩
    · cases hs

/-- Witness for `segment_open_corruption`: an 81-byte file is corrupt. -/
theorem segment_open_corruption_witness :
    (List.replicate 81 0).length % 80 ≠ 0 ∧
      segmentOpen (List.replicate 81 0) = .error .CorruptSegment :=
  ⟨by decide, (segment_open_corruption (List.replicate 81 0)).1 (by decide)⟩

/-- Chain index state: the committed tip height, `none` when empty. -/
structure ChainState where
  tip : Option Nat
  deriving DecidableEq

/-- Modelled from the spec: `tip_height()`, `none` if the chain is empty
(spec section 4.3). -/
def ChainState.tip_height (st : ChainState) : Option Nat := st.tip

/-- Modelled from the spec: `advance(height)` — only valid if
`height == tip_height() + 1` (or 0 for genesis on an empty chain); any
other height fails with `HeightGap` and leaves the state unchanged (spec
sections 4.3 and 8.3); the `SegmentIndex` component is not among the
repository sources. -/
def advance (st : ChainState) (height : Nat) :
    Except StoreError Unit × ChainState :=
  match st.tip with
  | none => if height = 0 then (.ok (), ⟨some 0⟩) else (.error .HeightGap, st)
  | some t =>
      if height = t + 1 then (.ok (), ⟨some height⟩)
      else (.error .HeightGap, st)

/-- C5: `advance(height)` succeeds exactly when `height` is the successor
of the tip (or 0 on an empty chain); every other height fails with
`HeightGap` and the returned state is the unchanged input state. -/
theorem advance_spec (st : ChainState) (height : Nat) :
    ((advance st height).1 = .ok () ↔
      (st.tip = none ∧ height = 0) ∨
        (∃ t, st.tip = some t ∧ height = t + 1)) ∧
    ((advance st height).1 ≠ .ok () →
      advance st height = (.error .HeightGap, st)) := by
  obtain ⟨tp⟩ := st
  cases tp with
  | none =>
    by_cases h : height = 0
    · subst h; simp [advance]
    · simp [advance, h]
  | some t =>
    by_cases h : height = t + 1
    · subst h; simp [advance]
    · simp [advance, h]

/-- Witness for `advance_spec`: advancing to height 6 over tip 4 fails
with `HeightGap` and leaves the state unchanged. -/
theorem advance_spec_witness :
    advance ⟨some 4⟩ 6 = (.error .HeightGap, ⟨some 4⟩) :=
  (advance_spec ⟨some 4⟩ 6).2 (by simp [advance])

/-- Decoded header fields, spec section 3: the 80-byte record is version,
previous hash, merkle root, timestamp, difficulty bits, nonce. -/
structure HeaderFields where
  version : Nat
  prev_hash : List Nat
  merkle_root : List Nat
  time : Nat
  bits : Nat
  nonce : Nat
  deriving DecidableEq

/-- Little-endian 4-byte serialisation of a 32-bit field, the network
header's integer layout. -/
def u32le (n : Nat) : List Nat :=
  [n % 256, n / 256 % 256, n / 65536 % 256, n / 16777216 % 256]

/-- Read back a little-endian 4-byte field. -/
def readU32le : List Nat → Nat
  | [a, b, c, d] => a + 256 * b + 65536 * c + 16777216 * d
  | _ => 0

/-- Modelled from the spec: `encode(header_fields) -> bytes[80]`, the
network header serialisation — version, previous-hash, merkle-root,
timestamp, bits, nonce, integers little-endian and hashes as raw 32 bytes
(spec section 4.1); the `HeaderCodec` component is not among the
repository sources. -/
def encodeHeader (h : HeaderFields) : List Nat :=
  u32le h.version ++ (h.prev_hash ++ (h.merkle_root
    ++ (u32le h.time ++ (u32le h.bits ++ u32le h.nonce))))

/-- Modelled from the spec: `decode(bytes[80]) -> header_fields`, failing
with `MalformedHeader` if the input length is not 80. -/
def decodeHeader (b : List Nat) : Except StoreError HeaderFields :=
  if b.length = 80 then
    .ok ⟨readU32le (b.take 4),
         ((b.drop 4).take 32),
         (((b.drop 4).drop 32).take 32),
         readU32le ((((b.drop 4).drop 32).drop 32).take 4),
         readU32le (((((b.drop 4).drop 32).drop 32).drop 4).take 4),
         readU32le ((((((b.drop 4).drop 32).drop 32).drop 4).drop 4).take 4)⟩
  else .error .MalformedHeader

/-- Validity of header fields: integers fit 32 bits and hashes are
32 bytes, as any header produced by `decode` satisfies. -/
def validHeader (h : HeaderFields) : Prop :=
  h.version < 4294967296 ∧ h.prev_hash.length = 32 ∧
    h.merkle_root.length = 32 ∧ h.time < 4294967296 ∧
    h.bits < 4294967296 ∧ h.nonce < 4294967296

instance (h : HeaderFields) : Decidable (validHeader h) := by
  unfold validHeader
  infer_instance

/-- Little-endian round-trip for 32-bit values. -/
theorem readU32le_u32le (n : Nat) (hn : n < 4294967296) :
    readU32le (u32le n) = n := by
  have hr : readU32le (u32le n) =
      n % 256 + 256 * (n / 256 % 256) + 65536 * (n / 65536 % 256)
        + 16777216 * (n / 16777216 % 256) := rfl
  rw [hr]
  omega

/-- C6: decode is a left inverse of encode on valid headers —
`decode(encode(h)) = h` for every valid field record `h`. -/
theorem decode_encode (h : HeaderFields) (hv : validHeader h) :
    decodeHeader (encodeHeader h) = .ok h := by
  obtain ⟨v, prev, merkle, t, bi, no⟩ := h
  obtain ⟨hv1, hv2, hv3, hv4, hv5, hv6⟩ := hv
  simp only at hv2 hv3
  have hlen : (encodeHeader ⟨v, prev, merkle, t, bi, no⟩).length = 80 := by
    simp [encodeHeader, u32le, hv2, hv3]
  unfold decodeHeader
  rw [if_pos hlen]
  unfold encodeHeader
  rw [List.take_left' (show (u32le v).length = 4 by simp [u32le]),
    List.drop_left' (show (u32le v).length = 4 by simp [u32le]),
    List.take_left' (show prev.length = 32 from hv2),
    List.drop_left' (show prev.length = 32 from hv2),
    List.take_left' (show merkle.length = 32 from hv3),
    List.drop_left' (show merkle.length = 32 from hv3),
    List.take_left' (show (u32le t).length = 4 by simp [u32le]),
    List.drop_left' (show (u32le t).length = 4 by simp [u32le]),
    List.take_left' (show (u32le bi).length = 4 by simp [u32le]),
    List.drop_left' (show (u32le bi).length = 4 by simp [u32le]),
    List.take_of_length_le (show (u32le no).length ≤ 4 by simp [u32le]),
    readU32le_u32le v hv1, readU32le_u32le t hv4,
    readU32le_u32le bi hv5, readU32le_u32le no hv6]

/-- Witness for `decode_encode` at a concrete valid header. -/
theorem decode_encode_witness :
    validHeader ⟨1, List.replicate 32 2, List.replicate 32 3, 4, 5, 6⟩ ∧
      decodeHeader (encodeHeader
        ⟨1, List.replicate 32 2, List.replicate 32 3, 4, 5, 6⟩) =
        .ok ⟨1, List.replicate 32 2, List.replicate 32 3, 4, 5, 6⟩ :=
  ⟨by decide, decode_encode _ (by decide)⟩

/-! ## Whole-script runs over an explicit file system -/

/-- Result of one script run: the lines printed (one entry per `print`
call, embedded newlines kept), the file-system state when the run
finishes, and the paths whose contents were read. -/
structure RunResult where
  output : List String
  fsAfter : String → Option (List Nat)
  reads : List String

/-- Python `os.path.join(a, b)` for the relative path the scripts join. -/
def joinPath (a b : String) : String :=
  if a = "" then b else if a.endsWith "/" then a ++ b else a ++ "/" ++ b

/-- Segment path both scripts resolve: `HOME` (defaulting to `.`) joined
with the fixed application-support location. -/
def segmentPath (home : Option String) : String :=
  joinPath (home.getD ".")
    "Library/Application Support/Dash-Evo-Tool/spv/dash/headers/segment_0000.dat"

/-- Body of the first-pass loop of `search_mystery_hash.py` (lines 27-50):
accumulates printed lines and the two found-flags. -/
def searchLoopBody (data : List Nat) (num_headers : Nat)
    (acc : List String × Bool × Bool) (i : Nat) : List String × Bool × Bool :=
  let hash_hex := searchFirstPassHex (headerAt data i)
  let acc1 :=
    if hash_hex = mystery_hash then
      (acc.1 ++
        (("🎯 FOUND MYSTERY HASH at height " ++ toString i ++ "!")
          :: "\nSurrounding headers:"
          :: ((List.range' (i - 2) (min num_headers (i + 3) - (i - 2))).map fun j =>
               "  Height " ++ toString j ++ ": "
                 ++ searchSurroundingHex (headerAt data j)
                 ++ (if j = i then " <-- MYSTERY" else ""))
          ++ [""]),
       true, acc.2.2)
    else acc
  if hash_hex = expected_hash then
    (acc1.1 ++ ["✓ Found expected hash at height " ++ toString i],
     acc1.2.1, true)
  else acc1

/-- One run of `search_mystery_hash.py` over environment `home` and file
system `fs`. -/
def searchRun (home : Option String) (fs : String → Option (List Nat)) :
    RunResult :=
  let segment_path := segmentPath home
  let pre := ["Searching for Mystery Hash in SPV Storage",
              "=========================================\n"]
  match fs segment_path with
  | none => ⟨pre ++ ["Segment file not found: " ++ segment_path], fs, []⟩
  | some data =>
      let header_size := 80
      let num_headers := data.length / header_size
      let head2 := ["Total headers in file: " ++ toString num_headers,
                    "Searching for mystery hash...\n"]
      let loopRes :=
        (List.range num_headers).foldl (searchLoopBody data num_headers)
          ([], false, false)
      let missing1 :=
        if loopRes.2.1 then [] else
          ["❌ Mystery hash NOT found in the segment file",
           "   This suggests it\x27s being generated incorrectly, not read from storage"]
      let missing2 :=
        if loopRes.2.2 then [] else
          ["❌ Expected hash for height 2000 NOT found",
           "   The file may not contain headers up to 2000 yet"]
      let analysis := ["\nFile analysis:",
        "- File size: " ++ toString data.length ++ " bytes",
        "- Complete headers: " ++ toString num_headers,
        "- Leftover bytes: " ++ toString (data.length % header_size)]
      let last5 := "\nLast 5 headers in file:" ::
        ((List.range' (num_headers - 5) (num_headers - (num_headers - 5))).map
          fun i => "  Height " ++ toString i ++ ": "
            ++ searchFirstPassHex (headerAt data i))
      ⟨pre ++ head2 ++ loopRes.1 ++ missing1 ++ missing2 ++ analysis ++ last5,
       fs, [segment_path]⟩

/-- Body of the around-2000 check loop of `test_mystery_hash.py`
(lines 34-48), guarded by `i * 80 + 80 <= len(data)`. -/
def testLoopBody (data : List Nat) (acc : List String) (i : Nat) :
    List String :=
  if i * 80 + 80 ≤ data.length then
    let hash_hex := testScanHex (headerAt data i)
    let acc1 := acc ++ ["  Height " ++ toString i ++ ": " ++ hash_hex]
    if hash_hex = mystery_hash then
      acc1 ++ ["    ^^^ FOUND MYSTERY HASH at height " ++ toString i ++ "!"]
    else if hash_hex = expected_hash then
      acc1 ++ ["    ^^^ This is the expected hash for height 2000"]
    else acc1
  else acc

/-- One run of `test_mystery_hash.py` over environment `home` and file
system `fs`. -/
def testRun (home : Option String) (fs : String → Option (List Nat)) :
    RunResult :=
  let segment_path := segmentPath home
  let pre := ["Analyzing Mystery Hash in SPV Storage",
              "====================================\n",
              "Expected hash at height 2000: " ++ expected_hash,
              "Mystery hash in GetHeaders:   " ++ mystery_hash,
              ""]
  match fs segment_path with
  | none =>
      ⟨pre ++ ["Segment file not found: " ++ segment_path,
               "SPV has not synced any headers yet"], fs, []⟩
  | some data =>
      let header_size := 80
      let expected_size := 2001 * header_size
      let info := ["Found segment file: " ++ segment_path,
        "File size: " ++ toString data.length ++ " bytes",
        "Expected size for 2001 headers: " ++ toString expected_size ++ " bytes",
        "\nChecking headers around position 2000:"]
      let checks := (List.range' 1998 5).foldl (testLoopBody data) []
      let recs := ["\nRecommendations:",
        "1. The mystery hash might be from:",
        "   - Reading the wrong height due to off-by-one error",
        "   - Block locator using wrong index",
        "   - Storage returning header from wrong position",
        "2. Add debug logging in dash-spv at:",
        "   - block_locator.rs when getting tip header",
        "   - storage get_header() method",
        "   - Before sending GetHeaders message"]
      ⟨pre ++ info ++ checks ++ recs, fs, [segment_path]⟩

/-- C7: both diagnostic scripts are read-only over the persisted format —
for every environment and file system, the file system after a run is
identical to the one before it; the scripts open the segment file only for
reading and recompute counts and hashes without writing. -/
theorem scripts_read_only (home : Option String)
    (fs : String → Option (List Nat)) :
    (searchRun home fs).fsAfter = fs ∧ (testRun home fs).fsAfter = fs := by
  cases h : fs (segmentPath home) <;> simp [searchRun, testRun, h]

/-- C10: each script is a deterministic function of exactly the `HOME`
value and the segment file's existence and contents — two runs whose file
systems agree at the resolved segment path print identical output — and
when the file is absent the output is exactly the not-found message block
and no file contents are read. -/
theorem scripts_env_deterministic (home : Option String)
    (fs fs2 : String → Option (List Nat))
    (hagree : fs (segmentPath home) = fs2 (segmentPath home)) :
    (searchRun home fs).output = (searchRun home fs2).output ∧
    (testRun home fs).output = (testRun home fs2).output ∧
    (fs (segmentPath home) = none →
      (searchRun home fs).output =
        ["Searching for Mystery Hash in SPV Storage",
         "=========================================\n",
         "Segment file not found: " ++ segmentPath home] ∧
      (searchRun home fs).reads = [] ∧
      (testRun home fs).output =
        ["Analyzing Mystery Hash in SPV Storage",
         "====================================\n",
         "Expected hash at height 2000: " ++ expected_hash,
         "Mystery hash in GetHeaders:   " ++ mystery_hash,
         "",
         "Segment file not found: " ++ segmentPath home,
         "SPV has not synced any headers yet"] ∧
      (testRun home fs).reads = []) := by
  refine ⟨?_, ?_, ?_⟩
  · simp only [searchRun, hagree]
    cases fs2 (segmentPath home) <;> rfl
  · simp only [testRun, hagree]
    cases fs2 (segmentPath home) <;> rfl
  · intro hnone
    simp [searchRun, testRun, hnone]

/-- Witness for `scripts_env_deterministic`: an empty file system with a
concrete home. -/
theorem scripts_env_deterministic_witness :
    ((fun _ : String => (none : Option (List Nat))) (segmentPath (some "/h")) =
      (fun _ : String => (none : Option (List Nat))) (segmentPath (some "/h"))) ∧
      (searchRun (some "/h") (fun _ => none)).reads = [] ∧
      (testRun (some "/h") (fun _ => none)).reads = [] := by
  refine ⟨rfl, ?_, ?_⟩
  · exact ((scripts_env_deterministic (some "/h") (fun _ => none)
      (fun _ => none) rfl).2.2 rfl).2.1
  · exact ((scripts_env_deterministic (some "/h") (fun _ => none)
      (fun _ => none) rfl).2.2 rfl).2.2.2
